import Mathlib

/-!
A verification development for the Weather Dashboard CLI.

The definitions below are a shallow embedding of the favorites store and
the weather-fetch façade from `src/utils.py`, together with the forecast
subsampling loop of `display_forecast` in `src/main.py`.

Modelling conventions:
* Python strings are Lean `String`s; `str.lower`, `str.strip`, `str.title`
  are embedded for the basic-latin range (the only range Lean's `Char`
  case functions act on).
* `json.load` results are `JValue` trees; a file on disk is a `FileState`
  (absent, unreadable, unparseable, or parsed to a `JValue`).
* Python exceptions that can escape the embedded functions are the
  `PyError` values of an `Except` result; exceptions caught inside a
  function do not appear in its type.
* The single HTTP request a fetch function performs is abstracted by an
  `HttpOutcome`; a fetch returns its `Option` result together with the
  list of diagnostics printed and the number of network calls made.
-/

/-- JSON values as produced by Python's `json.load`. -/
inductive JValue where
  | null : JValue
  | bool (b : Bool) : JValue
  | num (n : Int) : JValue
  | str (s : String) : JValue
  | arr (elems : List JValue) : JValue
  | obj (fields : List (String × JValue)) : JValue

/-- Python exceptions that can escape the embedded functions. -/
inductive PyError where
  | attributeError : PyError
  | typeError : PyError
  | keyError : PyError
  | valueError : PyError
deriving DecidableEq

/-- The state of the favorites file on disk. -/
inductive FileState where
  | missing : FileState
  | unreadable : FileState
  | malformed : FileState
  | parsed (v : JValue) : FileState

/-- The filesystem as seen by the favorites store: the favorites file plus
whether opening the file for writing succeeds (`IOError` when not). -/
structure FsState where
  file : FileState
  writeOk : Bool

/-- Python `str.lower` on a character list (basic-latin range, as Lean's
`Char.toLower`). -/
def pyLowerChars (cs : List Char) : List Char := cs.map Char.toLower

/-- Python `str.lower`. -/
def pyLower (s : String) : String := String.mk (pyLowerChars s.toList)

/-- Python `str.strip`: drop whitespace from both ends. -/
def pyStripChars (cs : List Char) : List Char :=
  ((cs.dropWhile Char.isWhitespace).reverse.dropWhile Char.isWhitespace).reverse

/-- Python `str.strip`. -/
def pyStrip (s : String) : String := String.mk (pyStripChars s.toList)

/-- Python `str.title` on characters: a letter is uppercased when the
previous character is not a letter, lowercased otherwise. -/
def pyTitleChars : Bool → List Char → List Char
  | _, [] => []
  | prevCased, c :: cs =>
    if c.isAlpha then
      (if prevCased then c.toLower else c.toUpper) :: pyTitleChars true cs
    else
      c :: pyTitleChars false cs

/-- Python `str.title`. -/
def pyTitle (s : String) : String := String.mk (pyTitleChars false s.toList)

/-- Python `dict.get key default` on a JSON object; a JSON object parsed by
Python keeps the last occurrence of a duplicated key. -/
def dictGet (fields : List (String × JValue)) (key : String) (dflt : JValue) : JValue :=
  match fields.reverse.lookup key with
  | some v => v
  | none => dflt

/-- Embeds `load_favorites` from `src/utils.py`: a missing file, an unreadable file
(`IOError`) and unparseable content (`json.JSONDecodeError`) all recover to the
empty list; on a parsed JSON object the `favorites` key is looked up with
default `[]`; on any other parsed value the attribute lookup `data.get`
raises `AttributeError`, which is not caught. -/
def load_favorites : FileState → Except PyError JValue
  | .missing => .ok (.arr [])
  | .unreadable => .ok (.arr [])
  | .malformed => .ok (.arr [])
  | .parsed (.obj fields) => .ok (dictGet fields "favorites" (.arr []))
  | .parsed _ => .error .attributeError

/-- Embeds `save_favorites` from `src/utils.py`: on a writable file, rewrite the
whole document as an object with the single key `favorites`; on `IOError`
return `false` with the file untouched. -/
def save_favorites (favorites : JValue) (st : FsState) : Bool × FsState :=
  if st.writeOk then
    (true, { st with file := .parsed (.obj [("favorites", favorites)]) })
  else
    (false, st)

/-- The generator check of `save_favorite`, over a Python list:
`any(fav.lower() == target for fav in favorites)`; `any` short-circuits,
and `.lower` on a non-string element raises `AttributeError`. -/
def anyLowerEqList (target : String) : List JValue → Except PyError Bool
  | [] => .ok false
  | .str s :: rest =>
    if pyLower s == target then .ok true else anyLowerEqList target rest
  | _ :: _ => .error .attributeError

/-- The generator check of `save_favorite` over an arbitrary loaded value:
iterating a Python string yields its one-character strings, iterating a dict
yields its keys, and non-iterable values raise `TypeError`. -/
def anyLowerEq (target : String) : JValue → Except PyError Bool
  | .arr es => anyLowerEqList target es
  | .str s => .ok (s.toList.any (fun ch => pyLower (String.mk [ch]) == target))
  | .obj fields => .ok (fields.any (fun f => pyLower f.1 == target))
  | _ => .error .typeError

/-- Python `list.append`; `.append` on a non-list raises `AttributeError`. -/
def pyAppend (v elem : JValue) : Except PyError JValue :=
  match v with
  | .arr es => .ok (.arr (es ++ [elem]))
  | _ => .error .attributeError

/-- Embeds `save_favorite` from `src/utils.py`: load, normalize the city name by
trim + title-case, refuse when an existing entry matches case-insensitively,
otherwise append and persist; the boolean returned by `save_favorites` is
discarded. -/
def save_favorite (city : String) (st : FsState) : Except PyError (Bool × FsState) := do
  let favorites ← load_favorites st.file
  let city_normalized := pyTitle (pyStrip city)
  let isDup ← anyLowerEq (pyLower city_normalized) favorites
  if isDup then
    return (false, st)
  else
    let favorites2 ← pyAppend favorites (.str city_normalized)
    let r := save_favorites favorites2 st
    return (true, r.2)

/-- The scan-and-pop loop of `remove_favorite` over a Python list: return the
list without its first case-insensitive match, `none` when no entry matches;
`.lower` on a non-string element raises `AttributeError`. -/
def removeFirstLower (target : String) : List JValue → Except PyError (Option (List JValue))
  | [] => .ok none
  | .str s :: rest =>
    if pyLower s == target then .ok (some rest)
    else do
      match ← removeFirstLower target rest with
      | some rest2 => return (some (.str s :: rest2))
      | none => return none
  | _ :: _ => .error .attributeError

/-- Embeds `remove_favorite` from `src/utils.py`: load, scan for the first entry
whose lowercase form matches the trimmed lowercased input, pop it and
persist (discarding the `save_favorites` boolean), else return `false`.
Iterating a string yields strings but `str` has no `.pop`; iterating a dict
yields its keys but `dict.pop` of an integer index raises `KeyError`;
non-iterable values raise `TypeError`. -/
def remove_favorite (city : String) (st : FsState) : Except PyError (Bool × FsState) := do
  let favorites ← load_favorites st.file
  let city_lower := pyLower (pyStrip city)
  match favorites with
  | .arr es =>
    match ← removeFirstLower city_lower es with
    | some es2 =>
      let r := save_favorites (.arr es2) st
      return (true, r.2)
    | none => return (false, st)
  | .str s =>
    if s.toList.any (fun ch => pyLower (String.mk [ch]) == city_lower) then
      Except.error .attributeError
    else
      return (false, st)
  | .obj fields =>
    if fields.any (fun f => pyLower f.1 == city_lower) then
      Except.error .keyError
    else
      return (false, st)
  | _ => Except.error .typeError

/-- The base endpoint of `src/utils.py`. -/
def BASE_URL : String := "https://api.openweathermap.org/data/2.5"

/-- Embeds `get_api_key` from `src/utils.py`: raise `ValueError` when the
module-level `API_KEY` is empty (the environment variable is unset),
otherwise return it. -/
def get_api_key (apiKey : String) : Except PyError String :=
  if apiKey == "" then
    .error .valueError
  else
    .ok apiKey

/-- The outcome of the single HTTP GET a fetch function performs. -/
inductive HttpOutcome where
  | success (body : JValue) : HttpOutcome
  | httpError (status : Nat) : HttpOutcome
  | connectionError : HttpOutcome
  | timeout : HttpOutcome
  | requestError (msg : String) : HttpOutcome

/-- What a fetch function produces: its return value, the diagnostics it
printed, and how many network calls it made. -/
structure FetchResult where
  result : Option JValue
  printed : List String
  networkCalls : Nat

/-- The query parameters both fetch functions send. -/
def requestParams (city apiKey : String) : List (String × String) :=
  [("q", city), ("appid", apiKey), ("units", "imperial")]

/-- Embeds `get_current_weather` from `src/utils.py`: no credential means an
immediate `None` with no request; otherwise one request, with HTTP 404
silently absent, any other HTTP error printing one diagnostic, and the
transport failures each printing one diagnostic. -/
def get_current_weather (apiKey city : String) (outcome : HttpOutcome) : FetchResult :=
  match get_api_key apiKey with
  | .error _ => ⟨none, [], 0⟩
  | .ok _ =>
    match outcome with
    | .success body => ⟨some body, [], 1⟩
    | .httpError status =>
      if status == 404 then
        ⟨none, [], 1⟩
      else
        ⟨none, ["HTTP Error: " ++ toString status], 1⟩
    | .connectionError =>
      ⟨none, ["Connection error: Could not reach the weather service."], 1⟩
    | .timeout =>
      ⟨none, ["Timeout: The weather service took too long to respond."], 1⟩
    | .requestError msg =>
      ⟨none, ["Error fetching weather data: " ++ msg], 1⟩

/-- Embeds `get_forecast` from `src/utils.py`: as `get_current_weather`, except
that its `HTTPError` handler returns `None` without printing anything, for
every HTTP error status. -/
def get_forecast (apiKey city : String) (outcome : HttpOutcome) : FetchResult :=
  match get_api_key apiKey with
  | .error _ => ⟨none, [], 0⟩
  | .ok _ =>
    match outcome with
    | .success body => ⟨some body, [], 1⟩
    | .httpError _ => ⟨none, [], 1⟩
    | .connectionError =>
      ⟨none, ["Connection error: Could not reach the weather service."], 1⟩
    | .timeout =>
      ⟨none, ["Timeout: The weather service took too long to respond."], 1⟩
    | .requestError msg =>
      ⟨none, ["Error fetching forecast data: " ++ msg], 1⟩

/-- The index sequence of the subsampling loop in `display_forecast`
(`src/main.py`): `range 0 (min 40 listLen) 8`. -/
def forecastDisplayIndices (listLen : Nat) : List Nat :=
  (List.range ((min 40 listLen + 7) / 8)).map (fun k => k * 8)

/-- The forecast entries `display_forecast` renders, in the order its loop
visits them. -/
def displayForecastRows (forecast_list : List JValue) : List JValue :=
  (forecastDisplayIndices forecast_list.length).filterMap
    (fun i => forecast_list[i]?)

/-- The identity of a favorite name: its lowercase-folded trimmed form. -/
def favId (city : String) : String := pyLower (pyStrip city)

/-- A store whose favorites document holds the given names, with the given
writability. -/
def favStoreW (names : List String) (w : Bool) : FsState :=
  ⟨.parsed (.obj [("favorites", .arr (names.map .str))]), w⟩

/-- A writable store whose favorites document holds the given names. -/
def favStore (names : List String) : FsState := favStoreW names true

/-- A writable store with no favorites document on disk. -/
def emptyStore : FsState := ⟨.missing, true⟩

/-! ### Character and string case lemmas -/

theorem char_toNat_ofNat (n : Nat) (h : n < 0xd800) : (Char.ofNat n).toNat = n := by
  have hv : n.isValidChar := Or.inl h
  simp [Char.ofNat, hv, Char.ofNatAux, Char.toNat, UInt32.toNat]

theorem toLower_eq_self (c : Char) (h : ¬ (65 ≤ c.toNat ∧ c.toNat ≤ 90)) :
    c.toLower = c := by
  unfold Char.toLower
  rw [if_neg h]

theorem toLower_toUpper (c : Char) : (c.toUpper).toLower = c.toLower := by
  unfold Char.toUpper Char.toLower
  by_cases h : 97 ≤ c.toNat ∧ c.toNat ≤ 122
  · rw [if_pos h]
    have h1 : (Char.ofNat (c.toNat - 32)).toNat = c.toNat - 32 :=
      char_toNat_ofNat _ (by omega)
    rw [h1]
    rw [if_pos (by omega : 65 ≤ c.toNat - 32 ∧ c.toNat - 32 ≤ 90)]
    rw [if_neg (by omega : ¬ (65 ≤ c.toNat ∧ c.toNat ≤ 90))]
    have h2 : c.toNat - 32 + 32 = c.toNat := by omega
    rw [h2, Char.ofNat_toNat]
  · rw [if_neg h]

theorem toLower_toLower (c : Char) : (c.toLower).toLower = c.toLower := by
  by_cases h0 : 65 ≤ c.toNat ∧ c.toNat ≤ 90
  · have hL : c.toLower = Char.ofNat (c.toNat + 32) := by
      unfold Char.toLower
      rw [if_pos h0]
    rw [hL]
    apply toLower_eq_self
    rw [char_toNat_ofNat _ (by omega)]
    omega
  · rw [toLower_eq_self c h0]
    exact toLower_eq_self c h0

theorem pyLowerChars_pyTitleChars (b : Bool) (cs : List Char) :
    pyLowerChars (pyTitleChars b cs) = pyLowerChars cs := by
  induction cs generalizing b with
  | nil => rfl
  | cons c rest ih =>
    unfold pyTitleChars
    by_cases hc : c.isAlpha = true
    · rw [if_pos hc]
      cases b with
      | true =>
        simp only [pyLowerChars, List.map_cons, if_true]
        rw [toLower_toLower]
        have := ih true
        simp only [pyLowerChars] at this
        rw [this]
      | false =>
        simp only [pyLowerChars, List.map_cons]
        rw [if_neg (by simp), toLower_toUpper]
        have := ih true
        simp only [pyLowerChars] at this
        rw [this]
    · rw [if_neg hc]
      simp only [pyLowerChars, List.map_cons]
      have := ih false
      simp only [pyLowerChars] at this
      rw [this]

/-- Lowercasing is insensitive to a preceding title-casing. -/
theorem pyLower_pyTitle (s : String) : pyLower (pyTitle s) = pyLower s := by
  simp only [pyLower, pyTitle]
  rw [show (String.mk (pyTitleChars false s.toList)).toList = pyTitleChars false s.toList from rfl]
  rw [pyLowerChars_pyTitleChars]

/-! ### Favorites store computation lemmas -/

theorem lookup_eq_none_of_forall {β : Type} (key : String) (ps : List (String × β))
    (h : ∀ kv ∈ ps, kv.1 ≠ key) : ps.lookup key = none := by
  induction ps with
  | nil => rfl
  | cons kv rest ih =>
    have hk : kv.1 ≠ key := h kv (List.mem_cons_self kv rest)
    have hbeq : (key == kv.1) = false := by
      simp [beq_iff_eq]
      exact fun he => hk he.symm
    simp only [List.lookup, hbeq]
    exact ih (fun x hx => h x (List.mem_cons_of_mem kv hx))

theorem load_favStoreW (L : List String) (w : Bool) :
    load_favorites (favStoreW L w).file = .ok (.arr (L.map .str)) := rfl

theorem anyLowerEqList_map_str (target : String) (L : List String) :
    anyLowerEqList target (L.map .str) =
      .ok (L.any (fun s => pyLower s == target)) := by
  induction L with
  | nil => rfl
  | cons s rest ih =>
    simp only [List.map_cons, anyLowerEqList, List.any_cons]
    by_cases hs : (pyLower s == target) = true
    · rw [if_pos hs, hs, Bool.true_or]
    · rw [if_neg hs, ih, Bool.eq_false_iff.mpr hs, Bool.false_or]

theorem removeFirstLower_map_str (target : String) (L : List String) :
    removeFirstLower target (L.map .str) =
      .ok (if L.any (fun s => pyLower s == target) then
             some ((L.eraseP (fun s => pyLower s == target)).map .str)
           else none) := by
  induction L with
  | nil => rfl
  | cons s rest ih =>
    by_cases hs : (pyLower s == target) = true
    · simp [removeFirstLower, hs, List.eraseP_cons]
    · have hs' : (pyLower s == target) = false := Bool.eq_false_iff.mpr hs
      simp only [List.map_cons, removeFirstLower, hs', if_false, Bool.false_eq_true,
        List.any_cons, Bool.false_or, List.eraseP_cons, cond_false, ih]
      by_cases hr : (rest.any fun x => pyLower x == target) = true
      · simp [hr, Bind.bind, Except.bind, Pure.pure, Except.pure]
      · have hr' : (rest.any fun x => pyLower x == target) = false :=
          Bool.eq_false_iff.mpr hr
        simp [hr', Bind.bind, Except.bind, Pure.pure, Except.pure]

/-! ### Claim theorems: fetch façade -/

/-- C5: with no API credential configured, both fetch operations return the
absent result immediately, perform zero network calls, and let no exception
surface (their embedding is a total function into `FetchResult`). -/
theorem fetch_without_credential_absent_no_network (city : String) (outcome : HttpOutcome) :
    get_current_weather "" city outcome = ⟨none, [], 0⟩ ∧
    get_forecast "" city outcome = ⟨none, [], 0⟩ :=
  ⟨rfl, rfl⟩

/-- C1, counterexample: a forecast fetch that receives HTTP 500 returns the
absent result with zero diagnostics printed, not exactly one, so the error
classification of the two fetch operations is not uniform. -/
theorem forecast_http500_prints_nothing_cex :
    (get_forecast "testkey" "London" (.httpError 500)).result = none ∧
    (get_forecast "testkey" "London" (.httpError 500)).printed = [] ∧
    ¬ (get_forecast "testkey" "London" (.httpError 500)).printed.length = 1 :=
  ⟨rfl, rfl, by simp [get_forecast, get_api_key]⟩

/-- C1, amended: with a credential configured, `get_current_weather` maps
HTTP 404 to absent with no diagnostic and any other HTTP error status to
absent with exactly one diagnostic, while `get_forecast` maps every HTTP
error status to absent with no diagnostic; both make exactly one network
call and neither raises. -/
theorem fetch_http_error_classification (apiKey city : String) (status : Nat)
    (hkey : apiKey ≠ "") :
    (get_current_weather apiKey city (.httpError status)).result = none ∧
    (get_current_weather apiKey city (.httpError status)).printed.length =
      (if status = 404 then 0 else 1) ∧
    (get_forecast apiKey city (.httpError status)).result = none ∧
    (get_forecast apiKey city (.httpError status)).printed = [] ∧
    (get_current_weather apiKey city (.httpError status)).networkCalls = 1 ∧
    (get_forecast apiKey city (.httpError status)).networkCalls = 1 := by
  have hk : (apiKey == "") = false := by
    simp [hkey]
  by_cases h404 : status = 404
  · simp [get_current_weather, get_forecast, get_api_key, hk, h404]
  · have h404b : (status == 404) = false := by
      simp [h404]
    simp [get_current_weather, get_forecast, get_api_key, hk, h404, h404b]

/-- Witness for the amended C1 theorem at a concrete credential and status. -/
theorem fetch_http_error_classification_witness :
    (get_current_weather "testkey" "London" (.httpError 500)).result = none ∧
    (get_current_weather "testkey" "London" (.httpError 500)).printed.length =
      (if (500 : Nat) = 404 then 0 else 1) ∧
    (get_forecast "testkey" "London" (.httpError 500)).result = none ∧
    (get_forecast "testkey" "London" (.httpError 500)).printed = [] ∧
    (get_current_weather "testkey" "London" (.httpError 500)).networkCalls = 1 ∧
    (get_forecast "testkey" "London" (.httpError 500)).networkCalls = 1 :=
  fetch_http_error_classification "testkey" "London" 500 (by simp)

/-! ### Claim theorems: loading the favorites document -/

/-- C4: `load_favorites` returns the empty list, raising nothing, when the
document is missing, when it is unparseable, and when it parses to an
object that lacks the `favorites` key. -/
theorem load_favorites_recovers_to_empty (fields : List (String × JValue))
    (h : ∀ kv ∈ fields, kv.1 ≠ "favorites") :
    load_favorites .missing = .ok (.arr []) ∧
    load_favorites .malformed = .ok (.arr []) ∧
    load_favorites (.parsed (.obj fields)) = .ok (.arr []) := by
  refine ⟨rfl, rfl, ?_⟩
  have hrev : ∀ kv ∈ fields.reverse, kv.1 ≠ "favorites" := by
    intro kv hkv
    exact h kv (List.mem_reverse.mp hkv)
  simp only [load_favorites, dictGet, lookup_eq_none_of_forall _ _ hrev]

/-- Witness for C4 at a one-field document without the `favorites` key. -/
theorem load_favorites_recovers_to_empty_witness :
    load_favorites .missing = .ok (.arr []) ∧
    load_favorites .malformed = .ok (.arr []) ∧
    load_favorites (.parsed (.obj [("other", .null)])) = .ok (.arr []) :=
  load_favorites_recovers_to_empty [("other", .null)]
    (by intro kv hkv; simp at hkv; simp [hkv])

/-- C9: when the document holds valid JSON whose top-level value is not an
object, `load_favorites` does not recover: the `data.get` attribute lookup
raises an uncaught `AttributeError`. -/
theorem load_favorites_nonobject_raises (v : JValue) (h : ∀ fields, v ≠ .obj fields) :
    load_favorites (.parsed v) = .error .attributeError := by
  cases v with
  | obj fields => exact absurd rfl (h fields)
  | null => rfl
  | bool b => rfl
  | num n => rfl
  | str s => rfl
  | arr es => rfl

/-- Witness for C9 at a document holding a bare JSON array. -/
theorem load_favorites_nonobject_raises_witness :
    load_favorites (.parsed (.arr [.str "London"])) = .error .attributeError :=
  load_favorites_nonobject_raises (.arr [.str "London"]) (by intro fields h; cases h)

/-! ### Claim theorems: add / remove scenarios -/

/-- C3: from an empty store, adding `london` succeeds and persists the
document with the single entry `London`; adding `LONDON` is refused and
changes nothing; removing `London` succeeds and persists the document with
an empty favorites list. -/
theorem scenario_add_add_remove :
    save_favorite "london" emptyStore = .ok (true, favStore ["London"]) ∧
    save_favorite "LONDON" (favStore ["London"]) = .ok (false, favStore ["London"]) ∧
    remove_favorite "London" (favStore ["London"]) = .ok (true, favStore []) :=
  ⟨rfl, rfl, rfl⟩

/-- C2: for names that differ only in letter case or surrounding whitespace,
the second `save_favorite` on an initially empty store returns `false` and
mutates nothing, leaving exactly one stored entry, whose lowercase-folded
identity is that of the first name. -/
theorem add_twice_dedups_case_whitespace (a b : String)
    (h : pyLower (pyStrip a) = pyLower (pyStrip b)) :
    save_favorite a emptyStore = .ok (true, favStore [pyTitle (pyStrip a)]) ∧
    save_favorite b (favStore [pyTitle (pyStrip a)]) =
      .ok (false, favStore [pyTitle (pyStrip a)]) ∧
    pyLower (pyTitle (pyStrip a)) = pyLower (pyStrip a) := by
  have hta := pyLower_pyTitle (pyStrip a)
  have htb := pyLower_pyTitle (pyStrip b)
  refine ⟨rfl, ?_, hta⟩
  have heq : (pyLower (pyTitle (pyStrip a)) == pyLower (pyTitle (pyStrip b))) = true := by
    rw [hta, htb, h]
    simp
  simp [save_favorite, favStore, favStoreW, load_favorites, dictGet, anyLowerEq,
    anyLowerEqList, heq, Bind.bind, Except.bind, Pure.pure, Except.pure]

/-- Witness for C2 with names differing in case and surrounding whitespace. -/
theorem add_twice_dedups_case_whitespace_witness :
    save_favorite "Paris " emptyStore =
      .ok (true, favStore [pyTitle (pyStrip "Paris ")]) ∧
    save_favorite " pARIS" (favStore [pyTitle (pyStrip "Paris ")]) =
      .ok (false, favStore [pyTitle (pyStrip "Paris ")]) ∧
    pyLower (pyTitle (pyStrip "Paris ")) = pyLower (pyStrip "Paris ") :=
  add_twice_dedups_case_whitespace "Paris " " pARIS" (by decide)

theorem countP_eraseP_add_one {α : Type} (p : α → Bool) (l : List α)
    (h : l.any p = true) : (l.eraseP p).countP p + 1 = l.countP p := by
  induction l with
  | nil => simp at h
  | cons a rest ih =>
    by_cases hp : p a = true
    · simp [List.eraseP_cons, hp, List.countP_cons]
    · have hp' : p a = false := Bool.eq_false_iff.mpr hp
      have hr : rest.any p = true := by
        simpa [List.any_cons, hp'] using h
      simp [List.eraseP_cons, hp', List.countP_cons, ih hr]

/-- C6: on a store holding exactly one entry with the identity of `city`,
`remove_favorite` returns `true` and persists the list with its first
matching entry erased (one entry shorter); a second `remove_favorite` of
the same identity returns `false` and mutates nothing. -/
theorem remove_twice_of_unique_identity (city : String) (L : List String)
    (h : L.countP (fun s => pyLower s == favId city) = 1) :
    remove_favorite city (favStore L) =
      .ok (true, favStore (L.eraseP (fun s => pyLower s == favId city))) ∧
    (L.eraseP (fun s => pyLower s == favId city)).length + 1 = L.length ∧
    remove_favorite city (favStore (L.eraseP (fun s => pyLower s == favId city))) =
      .ok (false, favStore (L.eraseP (fun s => pyLower s == favId city))) := by
  have hex : ∃ s ∈ L, (fun s => pyLower s == favId city) s = true := by
    have hpos : 0 < L.countP (fun s => pyLower s == favId city) := by omega
    simpa using List.countP_pos_iff.mp hpos
  obtain ⟨s0, hs0, hps0⟩ := hex
  have hany : (L.any fun s => pyLower s == favId city) = true :=
    List.any_eq_true.mpr ⟨s0, hs0, hps0⟩
  have hcount0 : ((L.eraseP (fun s => pyLower s == favId city)).countP
      (fun s => pyLower s == favId city)) = 0 := by
    have := countP_eraseP_add_one (fun s => pyLower s == favId city) L hany
    omega
  have hany' : ((L.eraseP (fun s => pyLower s == favId city)).any
      (fun s => pyLower s == favId city)) = false := by
    have hall := List.countP_eq_zero.mp hcount0
    rw [List.any_eq_false]
    intro x hx
    exact hall x hx
  have hexP : ∃ x ∈ L, pyLower x = pyLower (pyStrip city) := by
    refine ⟨s0, hs0, ?_⟩
    simpa [favId] using hps0
  have hnexP : ¬ ∃ x ∈ List.eraseP (fun s => pyLower s == pyLower (pyStrip city)) L,
      pyLower x = pyLower (pyStrip city) := by
    rintro ⟨x, hx, hpx⟩
    have hx' : x ∈ List.eraseP (fun s => pyLower s == favId city) L := by
      simpa [favId] using hx
    have hz := List.countP_eq_zero.mp hcount0 x hx'
    simp [favId] at hz
    exact hz hpx
  refine ⟨?_, List.length_eraseP_add_one hs0 hps0, ?_⟩
  · simp [remove_favorite, favStore, favStoreW, load_favorites, dictGet, favId,
      removeFirstLower_map_str, hexP, save_favorites, Bind.bind, Except.bind,
      Pure.pure, Except.pure]
  · simp [remove_favorite, favStore, favStoreW, load_favorites, dictGet, favId,
      removeFirstLower_map_str, hnexP, save_favorites, Bind.bind, Except.bind,
      Pure.pure, Except.pure]

/-- Witness for C6 on a store holding exactly `London`. -/
theorem remove_twice_of_unique_identity_witness :
    remove_favorite "london" (favStore ["London"]) =
      .ok (true, favStore (["London"].eraseP
        (fun s => pyLower s == favId "london"))) ∧
    ((["London"].eraseP (fun s => pyLower s == favId "london")).length + 1 =
      (["London"] : List String).length) ∧
    remove_favorite "london" (favStore (["London"].eraseP
        (fun s => pyLower s == favId "london"))) =
      .ok (false, favStore (["London"].eraseP
        (fun s => pyLower s == favId "london"))) :=
  remove_twice_of_unique_identity "london" ["London"] (by decide)

/-- C7: on a writable store, `save_favorites` of any list of names that are
unique by lowercase-folded trimmed identity succeeds, and a following
`load_favorites` yields exactly that list, in the same order. -/
theorem save_then_load_round_trip (L : List String) (st : FsState)
    (hw : st.writeOk = true) (huniq : (L.map favId).Nodup) :
    (save_favorites (.arr (L.map .str)) st).1 = true ∧
    load_favorites (save_favorites (.arr (L.map .str)) st).2.file =
      .ok (.arr (L.map .str)) := by
  simp [save_favorites, hw, load_favorites, dictGet]

/-- Witness for C7 on the empty store and two identity-distinct names. -/
theorem save_then_load_round_trip_witness :
    (save_favorites (.arr (["London", "Paris"].map .str)) emptyStore).1 = true ∧
    load_favorites
        (save_favorites (.arr (["London", "Paris"].map .str)) emptyStore).2.file =
      .ok (.arr (["London", "Paris"].map .str)) :=
  save_then_load_round_trip ["London", "Paris"] emptyStore rfl (by decide)

/-- C10: the booleans of `save_favorite` and `remove_favorite` reflect only
membership: on a store whose write fails, `save_favorites` reports `false`,
yet adding a new identity and removing a present identity both still return
`true`, with the document left unchanged and the write failure discarded. -/
theorem add_remove_booleans_ignore_write_failure (L : List String)
    (cityN cityP : String)
    (hN : (L.any fun s => pyLower s == pyLower (pyTitle (pyStrip cityN))) = false)
    (hP : (L.any fun s => pyLower s == pyLower (pyStrip cityP)) = true) :
    (save_favorites (.arr (L.map .str)) (favStoreW L false)).1 = false ∧
    save_favorite cityN (favStoreW L false) = .ok (true, favStoreW L false) ∧
    remove_favorite cityP (favStoreW L false) = .ok (true, favStoreW L false) := by
  have hNP : ∀ x ∈ L, ¬ pyLower x = pyLower (pyTitle (pyStrip cityN)) := by
    intro x hx
    have := List.any_eq_false.mp hN x hx
    simpa using this
  have hPP : ∃ x ∈ L, pyLower x = pyLower (pyStrip cityP) := by
    obtain ⟨x, hx, hpx⟩ := List.any_eq_true.mp hP
    exact ⟨x, hx, by simpa using hpx⟩
  refine ⟨rfl, ?_, ?_⟩
  · simp [save_favorite, favStoreW, load_favorites, dictGet, anyLowerEq,
      anyLowerEqList_map_str, hNP, pyAppend, save_favorites, Bind.bind,
      Except.bind, Pure.pure, Except.pure]
    exact hNP
  · simp [remove_favorite, favStoreW, load_favorites, dictGet,
      removeFirstLower_map_str, hPP, save_favorites, Bind.bind, Except.bind,
      Pure.pure, Except.pure]

/-- Witness for C10: `Paris` is new and `london` is present in a store
holding `London` whose write fails. -/
theorem add_remove_booleans_ignore_write_failure_witness :
    (save_favorites (.arr (["London"].map .str)) (favStoreW ["London"] false)).1
      = false ∧
    save_favorite "Paris" (favStoreW ["London"] false) =
      .ok (true, favStoreW ["London"] false) ∧
    remove_favorite "london" (favStoreW ["London"] false) =
      .ok (true, favStoreW ["London"] false) :=
  add_remove_booleans_ignore_write_failure ["London"] "Paris" "london"
    (by decide) (by decide)

/-! ### Claim theorems: forecast display subsampling -/

/-- C8: on a forecast list of 40 sub-daily entries, the display loop renders
exactly 5 entries, those at indices 0, 8, 16, 24 and 32, and the k-th
displayed row is the entry at index 8k, so the rows keep the original
timestamp order. -/
theorem forecast_subsample_40 (entries : List JValue) (h : entries.length = 40) :
    (displayForecastRows entries).length = 5 ∧
    displayForecastRows entries =
      [0, 8, 16, 24, 32].filterMap (fun i => entries[i]?) ∧
    ∀ k : Nat, (displayForecastRows entries)[k]? = entries[8 * k]? := by
  have hidx : forecastDisplayIndices entries.length = [0, 8, 16, 24, 32] := by
    rw [h]
    rfl
  have hrows : displayForecastRows entries =
      [0, 8, 16, 24, 32].filterMap (fun i => entries[i]?) := by
    unfold displayForecastRows
    rw [hidx]
  obtain ⟨a0, h0⟩ : ∃ x, entries[0]? = some x :=
    ⟨_, List.getElem?_eq_getElem (by omega)⟩
  obtain ⟨a8, h8⟩ : ∃ x, entries[8]? = some x :=
    ⟨_, List.getElem?_eq_getElem (by omega)⟩
  obtain ⟨a16, h16⟩ : ∃ x, entries[16]? = some x :=
    ⟨_, List.getElem?_eq_getElem (by omega)⟩
  obtain ⟨a24, h24⟩ : ∃ x, entries[24]? = some x :=
    ⟨_, List.getElem?_eq_getElem (by omega)⟩
  obtain ⟨a32, h32⟩ : ∃ x, entries[32]? = some x :=
    ⟨_, List.getElem?_eq_getElem (by omega)⟩
  have hrows5 : displayForecastRows entries = [a0, a8, a16, a24, a32] := by
    rw [hrows]
    simp [List.filterMap_cons, h0, h8, h16, h24, h32]
  refine ⟨by rw [hrows5]; rfl, hrows, ?_⟩
  intro k
  rw [hrows5]
  match k with
  | 0 => simpa using h0.symm
  | 1 => simpa using h8.symm
  | 2 => simpa using h16.symm
  | 3 => simpa using h24.symm
  | 4 => simpa using h32.symm
  | (n + 5) =>
    have hr : entries[8 * (n + 5)]? = none :=
      List.getElem?_eq_none (by omega)
    rw [hr]
    rfl

/-- Witness for C8 on a concrete 40-entry forecast list. -/
theorem forecast_subsample_40_witness :
    (displayForecastRows ((List.range 40).map (fun n => JValue.num (Int.ofNat n)))).length = 5 :=
  (forecast_subsample_40 ((List.range 40).map (fun n => JValue.num (Int.ofNat n)))
    (by rw [List.length_map, List.length_range])).1
